import Mathlib

/-!
# consistence/rpc_client.go

A shallow embedding of the RPC client of the consistence package
(`NsqdRpcClient`, `RpcCallError`, the retrying dispatcher `CallWithRetry` and
the nine mutating coordination operations built on it), together with the
properties of the client that follow from the code.

## How the outside world is modelled

The client talks to three external procedures: `net.DialTimeout`,
`rpc.Client.Call` and `rpc.Client.Close`.  Their results are not computed by
the program, so they are inputs of the model: a `Transport` fixes, for every
`i`, the outcome of the `i`-th call attempt, of the `i`-th dial and of the
`i`-th close made during an execution.  A `World` counts how many of each have
been made so far and records every external action, in order, in a trace.

The `for` loop of `CallWithRetry` has no exit condition of its own; it is
embedded with a bound on the number of iterations, and a run that has used up
the bound without reaching a `return` is reported as still running.
-/

namespace Consistence

/-! ## Errors -/

/-- Go `error` values as this file sees them: the sentinel `rpc.ErrShutdown`,
which the dispatcher compares against by identity, and every other error
value (timeouts, remote-side errors, dial errors), known by its message. -/
inductive GoError where
  | ErrShutdown
  | other (msg : String)
deriving DecidableEq, Repr

/-- The `Error()` method of a Go error.  `rpc.ErrShutdown` is
`errors.New("connection is shut down")`. -/
def GoError.Error : GoError → String
  | .ErrShutdown => "connection is shut down"
  | .other msg => msg

/-- A connection handle (`*rpc.Client`), known by an identifier. -/
abbrev Conn := Nat

/-- A `time.Duration`: a signed count of nanoseconds. -/
abbrev Duration := Int

/-- The constant `RPC_TIMEOUT`: ten seconds. -/
def RPC_TIMEOUT : Duration := 10 * 1000000000

/-- The constant `RPC_TIMEOUT_SHORT`: one second. -/
def RPC_TIMEOUT_SHORT : Duration := 1000000000

/-- The struct `NsqdRpcClient`. -/
structure NsqdRpcClient where
  remote : String
  timeout : Duration
  connection : Conn
deriving DecidableEq, Repr

/-- The struct `RpcCallError`.  `CallErr` is an `error` interface value and
`ReplyErr` a `*CoordErr`; either may be nil, which is `none` here.  The type
`CoordErr` is declared outside this file and is the parameter `CE`. -/
structure RpcCallError (CE : Type) where
  CallErr : Option GoError
  ReplyErr : Option CE

/-- The method `(*RpcCallError).Error`.  `coordErrError` is the method
`(*CoordErr).Error`, declared outside this file. -/
def RpcCallError.Error {CE : Type} (coordErrError : CE → String) (self : RpcCallError CE) : String :=
  let errStr := ""
  let errStr := match self.CallErr with
    | some e => errStr ++ e.Error
    | none => errStr
  let errStr := match self.ReplyErr with
    | some r => errStr ++ coordErrError r
    | none => errStr
  errStr

/-! ## The outside world -/

/-- The external actions of the client, as recorded in the trace.  The network
of a dial is always "tcp" and is left out. -/
inductive Event (α : Type) where
  | dial (addr : String) (timeout : Duration)
  | close (conn : Conn)
  | call (conn : Conn) (method : String) (arg : α)
  | log (method : String) (err : Option GoError)
deriving DecidableEq, Repr

/-- Whether an event is a call attempt. -/
def Event.isCall {α : Type} : Event α → Bool
  | .call _ _ _ => true
  | _ => false

/-- Whether an event is a dial. -/
def Event.isDial {α : Type} : Event α → Bool
  | .dial _ _ => true
  | _ => false

/-- Whether an event is the closing of a connection. -/
def Event.isClose {α : Type} : Event α → Bool
  | .close _ => true
  | _ => false

/-- What one call attempt does: the error it returns (`none` for nil) and what
it does to the value behind the reply pointer. -/
structure CallOutcome (ρ : Type) where
  err : Option GoError
  write : ρ → ρ

/-- The behaviour of the transport during an execution: the outcome of the
`i`-th call attempt, of the `i`-th dial and of the `i`-th close. -/
structure Transport (ρ : Type) where
  call : Nat → CallOutcome ρ
  dial : Nat → Except GoError Conn
  close : Nat → Option GoError

/-- How many call attempts, dials and closes have been made, and the trace of
all external actions, oldest first. -/
structure World (α : Type) where
  calls : Nat
  dials : Nat
  closes : Nat
  trace : List (Event α)

/-! ## Transport client -/

/-- The function `NewNsqdRpcClient`. -/
def NewNsqdRpcClient {α ρ : Type} (T : Transport ρ) (w : World α) (addr : String) (timeout : Duration) :
    Except GoError NsqdRpcClient × World α :=
  -- conn, err := net.DialTimeout("tcp", addr, timeout)
  let w1 : World α := { w with dials := w.dials + 1, trace := w.trace ++ [Event.dial addr timeout] }
  match T.dial w.dials with
  | .error err => (.error err, w1)
  | .ok conn => (.ok { remote := addr, timeout := timeout, connection := conn }, w1)

/-- The method `(*NsqdRpcClient).Reconnect`: the returned error (`none` for
nil), the client and the world afterwards. -/
def Reconnect {α ρ : Type} (T : Transport ρ) (self : NsqdRpcClient) (w : World α) :
    Option GoError × NsqdRpcClient × World α :=
  -- conn, err := net.DialTimeout("tcp", self.remote, self.timeout)
  let w1 : World α := { w with dials := w.dials + 1, trace := w.trace ++ [Event.dial self.remote self.timeout] }
  match T.dial w.dials with
  | .error err => (some err, self, w1)
  | .ok conn =>
    -- self.connection.Close(), its result dropped
    let _closeErr := T.close w1.closes
    let w2 : World α := { w1 with closes := w1.closes + 1, trace := w1.trace ++ [Event.close self.connection] }
    -- self.connection = rpc.NewClient(conn)
    (none, { self with connection := conn }, w2)

/-! ## Call dispatcher -/

/-- The result of running `CallWithRetry`: `ret` is `some err` when the method
has returned `err` (`some none` is a nil error) and `none` when the loop is
still running after the given number of iterations; `reply` is the value
behind the reply pointer, `self` and `world` the client and the world at that
point. -/
structure Run (α ρ : Type) where
  ret : Option (Option GoError)
  reply : ρ
  self : NsqdRpcClient
  world : World α

/-- The method `(*NsqdRpcClient).CallWithRetry`, run for at most `fuel`
iterations of its loop. -/
def CallWithRetry {α ρ : Type} (T : Transport ρ) :
    Nat → NsqdRpcClient → World α → String → α → ρ → Run α ρ
  | 0, self, w, _, _, reply => { ret := none, reply := reply, self := self, world := w }
  | fuel + 1, self, w, method, arg, reply =>
    -- err := self.connection.Call(method, arg, reply)
    let out := T.call w.calls
    let err := out.err
    let reply := out.write reply
    let w : World α := { w with calls := w.calls + 1, trace := w.trace ++ [Event.call self.connection method arg] }
    if err = some GoError.ErrShutdown then
      match Reconnect T self w with
      | (some err, self, w) => { ret := some (some err), reply := reply, self := self, world := w }
      | (none, self, w) => CallWithRetry T fuel self w method arg reply
    else
      -- coordLog.Infof("rpc call %v error: %v", method, err)
      let w : World α := { w with trace := w.trace ++ [Event.log method err] }
      { ret := some err, reply := reply, self := self, world := w }

/-! ## Requests of the coordination protocol

The request structs and the structs they are filled from are declared outside
this file.  Each is given here with the fields this file reads or assigns; a
parameter stands for whatever else `TopicPartionMetaInfo` and
`TopicLeaderSession` hold, and for the types `ChannelConsumerOffset`,
`CommitLogData` and `nsqd.Message`.  No operation of this file computes with
an epoch, a partition number or a name: they are only copied. -/

/-- The struct `TopicPartionMetaInfo`: the fields read here, and the rest. -/
structure TopicPartionMetaInfo (X : Type) where
  Name : String
  Partition : Int
  Epoch : Int
  rest : X
deriving DecidableEq, Repr

/-- The struct `TopicLeaderSession`: the fields read here, and the rest. -/
structure TopicLeaderSession (S : Type) where
  Session : String
  LeaderEpoch : Int
  rest : S
deriving DecidableEq, Repr

/-- The struct `RpcTopicLeaderSession`, with the fields assigned in
`NotifyTopicLeaderSession`. -/
structure RpcTopicLeaderSession (S : Type) where
  LookupdEpoch : Int
  TopicLeaderSession : TopicLeaderSession S
  TopicName : String
  TopicPartition : Int
  TopicSession : String
  TopicLeaderEpoch : Int
deriving DecidableEq, Repr

/-- The struct `RpcAdminTopicInfo`, with the fields assigned in this file. -/
structure RpcAdminTopicInfo (X : Type) where
  LookupdEpoch : Int
  TopicPartionMetaInfo : TopicPartionMetaInfo X
deriving DecidableEq, Repr

/-- The struct `RpcChannelOffsetArg`, with the fields assigned in
`UpdateChannelOffset`. -/
structure RpcChannelOffsetArg (O : Type) where
  TopicName : String
  TopicPartition : Int
  TopicEpoch : Int
  TopicLeaderEpoch : Int
  Channel : String
  ChannelOffset : O
deriving DecidableEq, Repr

/-- The struct `RpcPutMessage`, with the fields assigned in `PutMessage`.
`TopicMessage` is a `*nsqd.Message`, `none` when nil. -/
structure RpcPutMessage (L M : Type) where
  LogData : L
  TopicName : String
  TopicPartition : Int
  TopicMessage : Option M
  TopicEpoch : Int
  TopicLeaderEpoch : Int
deriving DecidableEq, Repr

/-- The struct `RpcPutMessages`, with the fields assigned in `PutMessages`. -/
structure RpcPutMessages (L M : Type) where
  LogList : List L
  TopicName : String
  TopicPartition : Int
  TopicMessages : List (Option M)
  TopicEpoch : Int
  TopicLeaderEpoch : Int
deriving DecidableEq, Repr

/-- The `interface{}` argument of `CallWithRetry`, as the mutating operations
use it: one of the five request structs. -/
inductive RpcArg (X S O L M : Type) where
  | topicLeaderSession (r : RpcTopicLeaderSession S)
  | adminTopicInfo (r : RpcAdminTopicInfo X)
  | channelOffset (r : RpcChannelOffsetArg O)
  | putMessage (r : RpcPutMessage L M)
  | putMessages (r : RpcPutMessages L M)
deriving DecidableEq, Repr

/-! ## Coordination protocol: the mutating operations

Each operation takes its pointer arguments as the values they point to (a nil
`topicInfo` or `leaderSession` makes the Go code fail with a nil dereference
before anything is sent).  `var retErr CoordErr` is the zero value of
`CoordErr`, the `default` of `CE`. -/

/-- The result of running a mutating operation: `ret` is `none` while the
dispatcher is still running, and `some p` when the operation has returned the
pointer `p` (`p = none` would be a nil `*RpcCallError`). -/
structure OpRun (α CE : Type) where
  ret : Option (Option (RpcCallError CE))
  self : NsqdRpcClient
  world : World α

/-- The statement `return &RpcCallError{err, &retErr}` that ends every mutating
operation, applied to the run of the dispatcher: `err` is what the dispatcher
returned and `retErr` is the value behind the reply pointer it was given. -/
def returnRpcCallError {α CE : Type} (d : Run α CE) : OpRun α CE :=
  { ret := match d.ret with
      | some err => some (some { CallErr := err, ReplyErr := some d.reply })
      | none => none
    self := d.self
    world := d.world }

section Operations

variable {X S O L M CE : Type} [Inhabited CE]

/-- The method `(*NsqdRpcClient).NotifyTopicLeaderSession`. -/
def NotifyTopicLeaderSession (T : Transport CE) (fuel : Nat) (self : NsqdRpcClient)
    (w : World (RpcArg X S O L M)) (epoch : Int) (topicInfo : TopicPartionMetaInfo X)
    (leaderSession : TopicLeaderSession S) : OpRun (RpcArg X S O L M) CE :=
  let rpcInfo : RpcTopicLeaderSession S :=
    { LookupdEpoch := epoch
      TopicLeaderSession := leaderSession
      TopicName := topicInfo.Name
      TopicPartition := topicInfo.Partition
      TopicSession := leaderSession.Session
      TopicLeaderEpoch := leaderSession.LeaderEpoch }
  let retErr : CE := default
  returnRpcCallError
    (CallWithRetry T fuel self w "NsqdCoordinator.NotifyTopicLeaderSession" (.topicLeaderSession rpcInfo) retErr)

/-- The method `(*NsqdRpcClient).UpdateTopicInfo`. -/
def UpdateTopicInfo (T : Transport CE) (fuel : Nat) (self : NsqdRpcClient)
    (w : World (RpcArg X S O L M)) (epoch : Int) (topicInfo : TopicPartionMetaInfo X) :
    OpRun (RpcArg X S O L M) CE :=
  let rpcInfo : RpcAdminTopicInfo X :=
    { LookupdEpoch := epoch
      TopicPartionMetaInfo := topicInfo }
  let retErr : CE := default
  returnRpcCallError
    (CallWithRetry T fuel self w "NsqdCoordinator.UpdateTopicInfo" (.adminTopicInfo rpcInfo) retErr)

/-- The method `(*NsqdRpcClient).EnableTopicWrite`. -/
def EnableTopicWrite (T : Transport CE) (fuel : Nat) (self : NsqdRpcClient)
    (w : World (RpcArg X S O L M)) (epoch : Int) (topicInfo : TopicPartionMetaInfo X) :
    OpRun (RpcArg X S O L M) CE :=
  let rpcInfo : RpcAdminTopicInfo X :=
    { LookupdEpoch := epoch
      TopicPartionMetaInfo := topicInfo }
  let retErr : CE := default
  returnRpcCallError
    (CallWithRetry T fuel self w "NsqdCoordinator.EnableTopicWrite" (.adminTopicInfo rpcInfo) retErr)

/-- The method `(*NsqdRpcClient).DisableTopicWrite`. -/
def DisableTopicWrite (T : Transport CE) (fuel : Nat) (self : NsqdRpcClient)
    (w : World (RpcArg X S O L M)) (epoch : Int) (topicInfo : TopicPartionMetaInfo X) :
    OpRun (RpcArg X S O L M) CE :=
  let rpcInfo : RpcAdminTopicInfo X :=
    { LookupdEpoch := epoch
      TopicPartionMetaInfo := topicInfo }
  let retErr : CE := default
  returnRpcCallError
    (CallWithRetry T fuel self w "NsqdCoordinator.DisableTopicWrite" (.adminTopicInfo rpcInfo) retErr)

/-- The method `(*NsqdRpcClient).UpdateCatchupForTopic`. -/
def UpdateCatchupForTopic (T : Transport CE) (fuel : Nat) (self : NsqdRpcClient)
    (w : World (RpcArg X S O L M)) (epoch : Int) (info : TopicPartionMetaInfo X) :
    OpRun (RpcArg X S O L M) CE :=
  let rpcReq : RpcAdminTopicInfo X :=
    { TopicPartionMetaInfo := info
      LookupdEpoch := epoch }
  let retErr : CE := default
  returnRpcCallError
    (CallWithRetry T fuel self w "NsqdCoordinator.UpdateCatchupForTopic" (.adminTopicInfo rpcReq) retErr)

/-- The method `(*NsqdRpcClient).UpdateChannelsForTopic`. -/
def UpdateChannelsForTopic (T : Transport CE) (fuel : Nat) (self : NsqdRpcClient)
    (w : World (RpcArg X S O L M)) (epoch : Int) (info : TopicPartionMetaInfo X) :
    OpRun (RpcArg X S O L M) CE :=
  let rpcReq : RpcAdminTopicInfo X :=
    { TopicPartionMetaInfo := info
      LookupdEpoch := epoch }
  let retErr : CE := default
  returnRpcCallError
    (CallWithRetry T fuel self w "NsqdCoordinator.UpdateChannelsForTopic" (.adminTopicInfo rpcReq) retErr)

/-- The method `(*NsqdRpcClient).UpdateChannelOffset`. -/
def UpdateChannelOffset (T : Transport CE) (fuel : Nat) (self : NsqdRpcClient)
    (w : World (RpcArg X S O L M)) (leaderEpoch : Int) (info : TopicPartionMetaInfo X)
    (channel : String) (offset : O) : OpRun (RpcArg X S O L M) CE :=
  let updateInfo : RpcChannelOffsetArg O :=
    { TopicName := info.Name
      TopicPartition := info.Partition
      TopicEpoch := info.Epoch
      TopicLeaderEpoch := leaderEpoch
      Channel := channel
      ChannelOffset := offset }
  let retErr : CE := default
  returnRpcCallError
    (CallWithRetry T fuel self w "NsqdCoordinator.UpdateChannelOffset" (.channelOffset updateInfo) retErr)

/-- The method `(*NsqdRpcClient).PutMessage`. -/
def PutMessage (T : Transport CE) (fuel : Nat) (self : NsqdRpcClient)
    (w : World (RpcArg X S O L M)) (leaderEpoch : Int) (info : TopicPartionMetaInfo X)
    (log : L) (message : Option M) : OpRun (RpcArg X S O L M) CE :=
  let putData : RpcPutMessage L M :=
    { LogData := log
      TopicName := info.Name
      TopicPartition := info.Partition
      TopicMessage := message
      TopicEpoch := info.Epoch
      TopicLeaderEpoch := leaderEpoch }
  let retErr : CE := default
  returnRpcCallError
    (CallWithRetry T fuel self w "NsqdCoordinator.PutMessage" (.putMessage putData) retErr)

/-- The method `(*NsqdRpcClient).PutMessages`. -/
def PutMessages (T : Transport CE) (fuel : Nat) (self : NsqdRpcClient)
    (w : World (RpcArg X S O L M)) (leaderEpoch : Int) (info : TopicPartionMetaInfo X)
    (loglist : List L) (messages : List (Option M)) : OpRun (RpcArg X S O L M) CE :=
  let putData : RpcPutMessages L M :=
    { LogList := loglist
      TopicName := info.Name
      TopicPartition := info.Partition
      TopicMessages := messages
      TopicEpoch := info.Epoch
      TopicLeaderEpoch := leaderEpoch }
  let retErr : CE := default
  returnRpcCallError
    (CallWithRetry T fuel self w "NsqdCoordinator.PutMessages" (.putMessages putData) retErr)

end Operations

/-! ## What a run of retries looks like

The three functions below describe, from the behaviour of the transport alone,
what `k` rounds of "call attempt reports shutdown, reconnect succeeds" leave
behind: the events, the connection in use and the value behind the reply
pointer.  `c` is the connection at the start, `j` the number of the next dial
and `i` the number of the next call attempt. -/

/-- The connection a dial has produced, or `c` when the dial failed. -/
def okConn (c : Conn) : Except GoError Conn → Conn
  | .ok conn => conn
  | .error _ => c

/-- The events of `k` rounds: in each, a call attempt on the current
connection, a dial of the stored address with the stored timeout and the
closing of the connection the call was made on. -/
def retryEvents {α ρ : Type} (T : Transport ρ) (remote : String) (timeout : Duration)
    (method : String) (arg : α) : Nat → Conn → Nat → List (Event α)
  | 0, _, _ => []
  | k + 1, c, j =>
    [Event.call c method arg, Event.dial remote timeout, Event.close c]
      ++ retryEvents T remote timeout method arg k (okConn c (T.dial j)) (j + 1)

/-- The connection in use after `k` rounds. -/
def retryConn {ρ : Type} (T : Transport ρ) : Nat → Conn → Nat → Conn
  | 0, c, _ => c
  | k + 1, c, j => retryConn T k (okConn c (T.dial j)) (j + 1)

/-- The value behind the reply pointer after `k` rounds: every attempt has
been handed the same pointer, so their writes pile up in order. -/
def retryReply {ρ : Type} (T : Transport ρ) : Nat → Nat → ρ → ρ
  | 0, _, reply => reply
  | k + 1, i, reply => retryReply T k (i + 1) ((T.call i).write reply)

/-- The client and the world after `k` rounds started from `self` and `w`. -/
def retryClient {ρ : Type} (T : Transport ρ) (k : Nat) (self : NsqdRpcClient) (j : Nat) : NsqdRpcClient :=
  { self with connection := retryConn T k self.connection j }

/-- The world after `k` rounds started from `self` and `w`. -/
def retryWorld {α ρ : Type} (T : Transport ρ) (k : Nat) (self : NsqdRpcClient) (w : World α)
    (method : String) (arg : α) : World α :=
  { calls := w.calls + k
    dials := w.dials + k
    closes := w.closes + k
    trace := w.trace ++ retryEvents T self.remote self.timeout method arg k self.connection w.dials }

/-! ## Sample clients and transports -/

/-- A client holding connection 0. -/
def sampleClient : NsqdRpcClient :=
  { remote := "10.0.0.2:4250", timeout := RPC_TIMEOUT, connection := 0 }

/-- A world in which nothing has happened yet. -/
def freshWorld (α : Type) : World α :=
  { calls := 0, dials := 0, closes := 0, trace := [] }

/-- A transport whose call attempts number `0` to `n - 1` report shutdown and
whose later attempts succeed, none touching the reply; dial number `j` yields
connection `j + 1`. -/
def shutdownThenOk (ρ : Type) (n : Nat) : Transport ρ :=
  { call := fun i => if i < n then { err := some GoError.ErrShutdown, write := id }
                     else { err := none, write := id }
    dial := fun j => .ok (j + 1)
    close := fun _ => none }

/-- A transport whose every call attempt reports shutdown and whose every dial
succeeds: dial number `j` yields connection `j + 1`. -/
def alwaysShutdown (ρ : Type) : Transport ρ :=
  { call := fun _ => { err := some GoError.ErrShutdown, write := id }
    dial := fun j => .ok (j + 1)
    close := fun _ => none }

/-- A transport whose every call attempt times out and whose every dial is
refused. -/
def timeoutTransport (ρ : Type) : Transport ρ :=
  { call := fun _ => { err := some (GoError.other "i/o timeout"), write := id }
    dial := fun _ => .error (GoError.other "connection refused")
    close := fun _ => none }

/-- A transport whose every call attempt reports shutdown; dial number `j`
yields connection `j + 1` when `j < n` and is refused otherwise. -/
def shutdownRefused (ρ : Type) (n : Nat) : Transport ρ :=
  { call := fun _ => { err := some GoError.ErrShutdown, write := id }
    dial := fun j => if j < n then .ok (j + 1) else .error (GoError.other "connection refused")
    close := fun _ => none }

/-- Partition 0 of a topic, at epoch 5. -/
def sampleInfo : TopicPartionMetaInfo Unit :=
  { Name := "orders", Partition := 0, Epoch := 5, rest := () }

/-- A leader session at leader epoch 3. -/
def sampleSession : TopicLeaderSession Unit :=
  { Session := "session-1", LeaderEpoch := 3, rest := () }

/-! ## What the operations are checked against -/

/-- The run of an invocation made with `self` and `w` has sent the request
`arg` under the name `method`: the first event it appended to the trace is a
call attempt with them on the connection held at the start, and every later
call attempt carries the same method and the same argument. -/
def SendsRequest {α : Type} (after : World α) (self : NsqdRpcClient) (w : World α)
    (method : String) (arg : α) : Prop :=
  ∃ rest : List (Event α),
    after.trace = w.trace ++ Event.call self.connection method arg :: rest ∧
    ∀ ev ∈ rest, ev.isCall = true → ∃ c, ev = Event.call c method arg

/-- The run `op` of an operation hands back the run `d` of the dispatcher in an
`RpcCallError`: when the dispatcher has returned `err`, the operation has
returned a non-nil `RpcCallError` whose `CallErr` is `err` and whose `ReplyErr`
is the non-nil pointer to the reply; while the dispatcher is running so is
the operation; and the operation has no effect of its own. -/
def WrapsDispatcher {α CE : Type} (op : OpRun α CE) (d : Run α CE) : Prop :=
  (∀ err, d.ret = some err →
    op.ret = some (some { CallErr := err, ReplyErr := some d.reply })) ∧
  (d.ret = none → op.ret = none) ∧
  op.self = d.self ∧
  op.world = d.world

/-- How the two fields of the result of the run `op` of an operation are
populated, given the run `d` of the dispatcher: when the dispatcher has
returned `err`, the operation has returned an `RpcCallError` whose `ReplyErr`
is non-nil and whose `CallErr` is non-nil exactly when `err` is. -/
def FieldsFollowDispatcher {α CE : Type} (op : OpRun α CE) (d : Run α CE) : Prop :=
  ∀ err, d.ret = some err →
    ∃ rc : RpcCallError CE, op.ret = some (some rc) ∧ rc.ReplyErr ≠ none ∧
      (rc.CallErr ≠ none ↔ err ≠ none)

/-- The operation `op` (a run for every number of iterations allowed) is one
invocation of the dispatcher with `method`, `arg` and a pointer to a zero
`CoordErr`, wrapped by the final `return`; and that invocation sends the
request. -/
def HandsDispatcher {α CE : Type} [Inhabited CE] (op : Nat → OpRun α CE) (T : Transport CE)
    (self : NsqdRpcClient) (w : World α) (method : String) (arg : α) : Prop :=
  ∀ fuel : Nat,
    op fuel = returnRpcCallError (CallWithRetry T fuel self w method arg default) ∧
    SendsRequest (op (fuel + 1)).world self w method arg

/-! ## The dispatcher, one iteration at a time -/

section Dispatcher

variable {α ρ : Type}

theorem callWithRetry_zero (T : Transport ρ) (self : NsqdRpcClient) (w : World α)
    (method : String) (arg : α) (reply : ρ) :
    CallWithRetry T 0 self w method arg reply
      = { ret := none, reply := reply, self := self, world := w } := rfl

theorem callWithRetry_other (T : Transport ρ) (fuel : Nat) (self : NsqdRpcClient) (w : World α)
    (method : String) (arg : α) (reply : ρ)
    (h : (T.call w.calls).err ≠ some GoError.ErrShutdown) :
    CallWithRetry T (fuel + 1) self w method arg reply
      = { ret := some (T.call w.calls).err
          reply := (T.call w.calls).write reply
          self := self
          world :=
            { calls := w.calls + 1
              dials := w.dials
              closes := w.closes
              trace := w.trace ++ [Event.call self.connection method arg,
                                   Event.log method (T.call w.calls).err] } } := by
  simp [CallWithRetry, h]

theorem callWithRetry_dial_error (T : Transport ρ) (fuel : Nat) (self : NsqdRpcClient) (w : World α)
    (method : String) (arg : α) (reply : ρ) (e : GoError)
    (h : (T.call w.calls).err = some GoError.ErrShutdown) (hd : T.dial w.dials = .error e) :
    CallWithRetry T (fuel + 1) self w method arg reply
      = { ret := some (some e)
          reply := (T.call w.calls).write reply
          self := self
          world :=
            { calls := w.calls + 1
              dials := w.dials + 1
              closes := w.closes
              trace := w.trace ++ [Event.call self.connection method arg,
                                   Event.dial self.remote self.timeout] } } := by
  simp [CallWithRetry, Reconnect, h, hd]

theorem callWithRetry_dial_ok (T : Transport ρ) (fuel : Nat) (self : NsqdRpcClient) (w : World α)
    (method : String) (arg : α) (reply : ρ) (c : Conn)
    (h : (T.call w.calls).err = some GoError.ErrShutdown) (hd : T.dial w.dials = .ok c) :
    CallWithRetry T (fuel + 1) self w method arg reply
      = CallWithRetry T fuel { self with connection := c }
          { calls := w.calls + 1
            dials := w.dials + 1
            closes := w.closes + 1
            trace := w.trace ++ [Event.call self.connection method arg,
                                 Event.dial self.remote self.timeout,
                                 Event.close self.connection] }
          method arg ((T.call w.calls).write reply) := by
  simp [CallWithRetry, Reconnect, h, hd]

theorem retryClient_zero (T : Transport ρ) (self : NsqdRpcClient) (j : Nat) :
    retryClient T 0 self j = self := rfl

theorem retryWorld_zero (T : Transport ρ) (self : NsqdRpcClient) (w : World α)
    (method : String) (arg : α) :
    retryWorld T 0 self w method arg = w := by
  cases w
  simp [retryWorld, retryEvents]

/-- Unrolling: while the call attempts report shutdown and the reconnects
succeed, `k` iterations of the loop are `k` rounds. -/
theorem callWithRetry_rounds (T : Transport ρ) (method : String) (arg : α) (k f : Nat) :
    ∀ (self : NsqdRpcClient) (w : World α) (reply : ρ),
      (∀ i, i < k → (T.call (w.calls + i)).err = some GoError.ErrShutdown) →
      (∀ i, i < k → ∃ c, T.dial (w.dials + i) = .ok c) →
      CallWithRetry T (k + f) self w method arg reply
        = CallWithRetry T f (retryClient T k self w.dials) (retryWorld T k self w method arg)
            method arg (retryReply T k w.calls reply) := by
  induction k with
  | zero =>
    intro self w reply _ _
    rw [retryClient_zero, retryWorld_zero, Nat.zero_add]
    rfl
  | succ k ih =>
    intro self w reply hcall hdial
    obtain ⟨c, hc⟩ := hdial 0 (Nat.succ_pos k)
    have h0 := hcall 0 (Nat.succ_pos k)
    simp only [Nat.add_zero] at hc h0
    rw [Nat.add_right_comm k 1 f, callWithRetry_dial_ok T (k + f) self w method arg reply c h0 hc]
    rw [ih]
    · simp only [retryClient, retryWorld, retryConn, retryEvents, retryReply, hc, okConn,
        List.append_assoc, Nat.add_assoc, Nat.add_comm 1 k]
    · intro i hi
      have := hcall (i + 1) (Nat.succ_lt_succ hi)
      simpa [Nat.add_assoc, Nat.add_comm 1 i] using this
    · intro i hi
      have := hdial (i + 1) (Nat.succ_lt_succ hi)
      simpa [Nat.add_assoc, Nat.add_comm 1 i] using this

theorem retryEvents_countP_isCall (T : Transport ρ) (remote : String) (timeout : Duration)
    (method : String) (arg : α) (k : Nat) :
    ∀ (c : Conn) (j : Nat),
      (retryEvents T remote timeout method arg k c j).countP Event.isCall = k := by
  induction k with
  | zero => intro c j; rfl
  | succ k ih =>
    intro c j
    simp [retryEvents, List.countP_cons, Event.isCall, ih]

theorem retryEvents_countP_isDial (T : Transport ρ) (remote : String) (timeout : Duration)
    (method : String) (arg : α) (k : Nat) :
    ∀ (c : Conn) (j : Nat),
      (retryEvents T remote timeout method arg k c j).countP Event.isDial = k := by
  induction k with
  | zero => intro c j; rfl
  | succ k ih =>
    intro c j
    simp [retryEvents, List.countP_cons, Event.isDial, ih]

theorem retryEvents_countP_isClose (T : Transport ρ) (remote : String) (timeout : Duration)
    (method : String) (arg : α) (k : Nat) :
    ∀ (c : Conn) (j : Nat),
      (retryEvents T remote timeout method arg k c j).countP Event.isClose = k := by
  induction k with
  | zero => intro c j; rfl
  | succ k ih =>
    intro c j
    simp [retryEvents, List.countP_cons, Event.isClose, ih]

theorem retryEvents_call (T : Transport ρ) (remote : String) (timeout : Duration)
    (method : String) (arg : α) (k : Nat) :
    ∀ (c : Conn) (j : Nat) (ev : Event α),
      ev ∈ retryEvents T remote timeout method arg k c j → ev.isCall = true →
      ∃ conn, ev = Event.call conn method arg := by
  induction k with
  | zero => intro c j ev h; simp [retryEvents] at h
  | succ k ih =>
    intro c j ev h hcall
    simp only [retryEvents, List.cons_append, List.nil_append, List.mem_cons] at h
    rcases h with h | h | h | h
    · exact ⟨c, h⟩
    · subst h; simp [Event.isCall] at hcall
    · subst h; simp [Event.isCall] at hcall
    · exact ih _ _ ev h hcall

/-- The loop returns within `m + 1` iterations when call attempt number `m`
(counted from the start of the run) does not report shutdown, or dial number
`m` fails. -/
theorem callWithRetry_returns (T : Transport ρ) (method : String) (arg : α) (m : Nat) :
    ∀ (self : NsqdRpcClient) (w : World α) (reply : ρ),
      ((T.call (w.calls + m)).err ≠ some GoError.ErrShutdown ∨ ∃ e, T.dial (w.dials + m) = .error e) →
      (CallWithRetry T (m + 1) self w method arg reply).ret ≠ none := by
  induction m with
  | zero =>
    intro self w reply h
    simp only [Nat.add_zero] at h
    by_cases hc : (T.call w.calls).err = some GoError.ErrShutdown
    · cases hd : T.dial w.dials with
      | error e => rw [callWithRetry_dial_error T 0 self w method arg reply e hc hd]; simp
      | ok c =>
        rcases h with h | ⟨e, he⟩
        · exact absurd hc h
        · rw [hd] at he; cases he
    · rw [callWithRetry_other T 0 self w method arg reply hc]; simp
  | succ m ih =>
    intro self w reply h
    by_cases hc : (T.call w.calls).err = some GoError.ErrShutdown
    · cases hd : T.dial w.dials with
      | error e => rw [callWithRetry_dial_error T (m + 1) self w method arg reply e hc hd]; simp
      | ok c =>
        rw [callWithRetry_dial_ok T (m + 1) self w method arg reply c hc hd]
        apply ih
        simpa [Nat.add_assoc, Nat.add_comm 1 m] using h
    · rw [callWithRetry_other T (m + 1) self w method arg reply hc]; simp

/-- Once the loop has returned, more iterations change nothing. -/
theorem callWithRetry_mono (T : Transport ρ) (method : String) (arg : α) (n d : Nat) :
    ∀ (self : NsqdRpcClient) (w : World α) (reply : ρ),
      (CallWithRetry T n self w method arg reply).ret ≠ none →
      CallWithRetry T (n + d) self w method arg reply = CallWithRetry T n self w method arg reply := by
  induction n with
  | zero => intro self w reply h; exact absurd rfl h
  | succ n ih =>
    intro self w reply h
    rw [Nat.add_right_comm n 1 d]
    by_cases hc : (T.call w.calls).err = some GoError.ErrShutdown
    · cases hd : T.dial w.dials with
      | error e =>
        rw [callWithRetry_dial_error T (n + d) self w method arg reply e hc hd,
          callWithRetry_dial_error T n self w method arg reply e hc hd]
      | ok c =>
        rw [callWithRetry_dial_ok T n self w method arg reply c hc hd] at h
        rw [callWithRetry_dial_ok T (n + d) self w method arg reply c hc hd,
          callWithRetry_dial_ok T n self w method arg reply c hc hd]
        exact ih _ _ _ h
    · rw [callWithRetry_other T (n + d) self w method arg reply hc,
        callWithRetry_other T n self w method arg reply hc]

/-- What any run of the loop, returned or not, has done to the world: it has
appended events to the trace, every call attempt among them carries the method
and the argument of the invocation, the first of them (when an iteration was
run at all) is a call attempt on the connection held at the start, the
counters count them, and the stored address and timeout are untouched. -/
theorem callWithRetry_events (T : Transport ρ) (method : String) (arg : α) (fuel : Nat) :
    ∀ (self : NsqdRpcClient) (w : World α) (reply : ρ),
      ∃ evs : List (Event α),
        (CallWithRetry T fuel self w method arg reply).world.trace = w.trace ++ evs ∧
        (∀ ev ∈ evs, ev.isCall = true → ∃ c, ev = Event.call c method arg) ∧
        (0 < fuel → evs.head? = some (Event.call self.connection method arg)) ∧
        (CallWithRetry T fuel self w method arg reply).world.calls = w.calls + evs.countP Event.isCall ∧
        (CallWithRetry T fuel self w method arg reply).world.dials = w.dials + evs.countP Event.isDial ∧
        (CallWithRetry T fuel self w method arg reply).self.remote = self.remote ∧
        (CallWithRetry T fuel self w method arg reply).self.timeout = self.timeout := by
  induction fuel with
  | zero =>
    intro self w reply
    exact ⟨[], by simp [CallWithRetry]⟩
  | succ n ih =>
    intro self w reply
    by_cases hc : (T.call w.calls).err = some GoError.ErrShutdown
    · cases hd : T.dial w.dials with
      | error e =>
        rw [callWithRetry_dial_error T n self w method arg reply e hc hd]
        refine ⟨[Event.call self.connection method arg, Event.dial self.remote self.timeout], ?_⟩
        simp [Event.isCall, Event.isDial, List.countP_cons]
      | ok c =>
        rw [callWithRetry_dial_ok T n self w method arg reply c hc hd]
        obtain ⟨evs, h1, h2, _, h4, h5, h6, h7⟩ := ih { self with connection := c }
          { calls := w.calls + 1
            dials := w.dials + 1
            closes := w.closes + 1
            trace := w.trace ++ [Event.call self.connection method arg,
                                 Event.dial self.remote self.timeout,
                                 Event.close self.connection] }
          ((T.call w.calls).write reply)
        refine ⟨[Event.call self.connection method arg, Event.dial self.remote self.timeout,
          Event.close self.connection] ++ evs, ?_, ?_, ?_, ?_, ?_, h6, h7⟩
        · rw [h1]; simp
        · intro ev hev hcall
          simp only [List.cons_append, List.nil_append, List.mem_cons] at hev
          rcases hev with h | h | h | h
          · exact ⟨_, h⟩
          · subst h; simp [Event.isCall] at hcall
          · subst h; simp [Event.isCall] at hcall
          · exact h2 ev h hcall
        · intro _; rfl
        · rw [h4]; simp [List.countP_cons, Event.isCall]; omega
        · rw [h5]; simp [List.countP_cons, Event.isDial]; omega
    · rw [callWithRetry_other T n self w method arg reply hc]
      refine ⟨[Event.call self.connection method arg, Event.log method (T.call w.calls).err], ?_⟩
      simp [Event.isCall, Event.isDial, List.countP_cons]

/-- Claim C1.  When the first call attempt of `CallWithRetry` yields anything
but `rpc.ErrShutdown` (nil, a timeout, a remote-side error), `CallWithRetry`
returns exactly that outcome, whatever the number of iterations allowed; it
has made one call attempt, on the connection it held, followed by the log
line, and no dial and no close: the client is unchanged. -/
theorem callWithRetry_returns_first_outcome (T : Transport ρ) (fuel : Nat) (self : NsqdRpcClient)
    (w : World α) (method : String) (arg : α) (reply : ρ)
    (h : (T.call w.calls).err ≠ some GoError.ErrShutdown) :
    (CallWithRetry T (fuel + 1) self w method arg reply).ret = some (T.call w.calls).err ∧
    (CallWithRetry T (fuel + 1) self w method arg reply).reply = (T.call w.calls).write reply ∧
    (CallWithRetry T (fuel + 1) self w method arg reply).self = self ∧
    (CallWithRetry T (fuel + 1) self w method arg reply).world.trace
      = w.trace ++ [Event.call self.connection method arg, Event.log method (T.call w.calls).err] ∧
    (CallWithRetry T (fuel + 1) self w method arg reply).world.calls = w.calls + 1 ∧
    (CallWithRetry T (fuel + 1) self w method arg reply).world.dials = w.dials ∧
    (CallWithRetry T (fuel + 1) self w method arg reply).world.closes = w.closes := by
  rw [callWithRetry_other T fuel self w method arg reply h]
  exact ⟨rfl, rfl, rfl, rfl, rfl, rfl, rfl⟩

/-- Claim C2.  When a call attempt of `CallWithRetry` reports
`rpc.ErrShutdown` and the `Reconnect` that follows fails with `e`, the method
returns `e` at once.  The attempt may be the first (`k = 0`) or come after `k`
rounds of shutdown and successful reconnect.  The failed dial is the last
event of the run: after it there is no call attempt, no dial and no close, and
the client keeps the connection the attempt was made on. -/
theorem callWithRetry_reconnect_failure (T : Transport ρ) (self : NsqdRpcClient) (w : World α)
    (method : String) (arg : α) (reply : ρ) (k f : Nat) (e : GoError)
    (hcall : ∀ i, i < k → (T.call (w.calls + i)).err = some GoError.ErrShutdown)
    (hdial : ∀ i, i < k → ∃ c, T.dial (w.dials + i) = .ok c)
    (hlast : (T.call (w.calls + k)).err = some GoError.ErrShutdown)
    (hfail : T.dial (w.dials + k) = .error e) :
    (CallWithRetry T (k + (f + 1)) self w method arg reply).ret = some (some e) ∧
    (CallWithRetry T (k + (f + 1)) self w method arg reply).self = retryClient T k self w.dials ∧
    (CallWithRetry T (k + (f + 1)) self w method arg reply).world.trace
      = w.trace ++ (retryEvents T self.remote self.timeout method arg k self.connection w.dials
          ++ [Event.call (retryConn T k self.connection w.dials) method arg,
              Event.dial self.remote self.timeout]) ∧
    (CallWithRetry T (k + (f + 1)) self w method arg reply).world.calls = w.calls + k + 1 ∧
    (CallWithRetry T (k + (f + 1)) self w method arg reply).world.dials = w.dials + k + 1 ∧
    (CallWithRetry T (k + (f + 1)) self w method arg reply).world.closes = w.closes + k := by
  rw [callWithRetry_rounds T method arg k (f + 1) self w reply hcall hdial,
    callWithRetry_dial_error T f _ _ method arg _ e hlast hfail]
  simp [retryWorld, retryClient, List.append_assoc]

/-- Claim C3.  When the first `k` call attempts report `rpc.ErrShutdown`, each
reconnect succeeds and the next call attempt yields a non-shutdown outcome,
`CallWithRetry` returns that outcome.  Its events are `k` rounds of one call
attempt, one dial of the stored address and one close of the connection the
attempt was made on, followed by the last call attempt and the log line:
`k + 1` call attempts, `k` dials and `k` closes, every attempt with the method
and the argument of the invocation, and all writing behind the same reply
pointer.
This holds for every `k`, so for every `k >= 1`. -/
theorem callWithRetry_reconnects_then_returns (T : Transport ρ) (self : NsqdRpcClient) (w : World α)
    (method : String) (arg : α) (reply : ρ) (k f : Nat)
    (hcall : ∀ i, i < k → (T.call (w.calls + i)).err = some GoError.ErrShutdown)
    (hdial : ∀ i, i < k → ∃ c, T.dial (w.dials + i) = .ok c)
    (hlast : (T.call (w.calls + k)).err ≠ some GoError.ErrShutdown) :
    ∃ evs : List (Event α),
      evs = retryEvents T self.remote self.timeout method arg k self.connection w.dials
          ++ [Event.call (retryConn T k self.connection w.dials) method arg,
              Event.log method (T.call (w.calls + k)).err] ∧
      (CallWithRetry T (k + (f + 1)) self w method arg reply).ret = some (T.call (w.calls + k)).err ∧
      (CallWithRetry T (k + (f + 1)) self w method arg reply).reply
        = (T.call (w.calls + k)).write (retryReply T k w.calls reply) ∧
      (CallWithRetry T (k + (f + 1)) self w method arg reply).world.trace = w.trace ++ evs ∧
      evs.countP Event.isCall = k + 1 ∧
      evs.countP Event.isDial = k ∧
      evs.countP Event.isClose = k ∧
      (∀ ev ∈ evs, ev.isCall = true → ∃ c, ev = Event.call c method arg) := by
  refine ⟨_, rfl, ?_, ?_, ?_, ?_, ?_, ?_, ?_⟩
  · rw [callWithRetry_rounds T method arg k (f + 1) self w reply hcall hdial,
      callWithRetry_other T f _ _ method arg _ hlast]
    rfl
  · rw [callWithRetry_rounds T method arg k (f + 1) self w reply hcall hdial,
      callWithRetry_other T f _ _ method arg _ hlast]
    rfl
  · rw [callWithRetry_rounds T method arg k (f + 1) self w reply hcall hdial,
      callWithRetry_other T f _ _ method arg _ hlast]
    simp [retryWorld, retryClient, List.append_assoc]
  · rw [List.countP_append, retryEvents_countP_isCall]
    simp [List.countP_cons, Event.isCall]
  · rw [List.countP_append, retryEvents_countP_isDial]
    simp [List.countP_cons, Event.isDial]
  · rw [List.countP_append, retryEvents_countP_isClose]
    simp [List.countP_cons, Event.isClose]
  · intro ev hev hc
    rcases List.mem_append.mp hev with h | h
    · exact retryEvents_call T _ _ method arg k _ _ ev h hc
    · simp only [List.mem_cons, List.mem_singleton] at h
      rcases h with h | h | h
      · exact ⟨_, h⟩
      · subst h; simp [Event.isCall] at hc
      · cases h

/-- Claim C9.  `CallWithRetry` has no retry counter.  For every `n` there is a
transport, whose first `n` call attempts report `rpc.ErrShutdown` and whose
every dial succeeds, on which the method makes more than `n` call attempts.
On a transport whose every call attempt reports `rpc.ErrShutdown` and whose
every dial succeeds, no number of iterations makes it return, and after
`fuel` iterations it has made `fuel` call attempts.  It does return, with a
result that further iterations do not change, whenever some call attempt
yields a non-shutdown outcome or some dial fails. -/
theorem callWithRetry_no_retry_counter (self : NsqdRpcClient) (w : World α) (method : String)
    (arg : α) (reply : ρ) :
    (∀ n : Nat, ∃ T : Transport ρ,
        (∀ i, i < n → (T.call (w.calls + i)).err = some GoError.ErrShutdown) ∧
        (∀ j, ∃ c, T.dial j = .ok c) ∧
        ∃ (fuel : Nat) (evs : List (Event α)),
          (CallWithRetry T fuel self w method arg reply).world.trace = w.trace ++ evs ∧
          n < evs.countP Event.isCall) ∧
    (∀ T : Transport ρ,
        (∀ i, (T.call (w.calls + i)).err = some GoError.ErrShutdown) →
        (∀ j, ∃ c, T.dial (w.dials + j) = .ok c) →
        ∀ fuel, (CallWithRetry T fuel self w method arg reply).ret = none ∧
          (CallWithRetry T fuel self w method arg reply).world.calls = w.calls + fuel) ∧
    (∀ T : Transport ρ,
        ((∃ i, (T.call (w.calls + i)).err ≠ some GoError.ErrShutdown) ∨
          (∃ j e, T.dial (w.dials + j) = .error e)) →
        ∃ fuel, (CallWithRetry T fuel self w method arg reply).ret ≠ none ∧
          ∀ d, CallWithRetry T (fuel + d) self w method arg reply
            = CallWithRetry T fuel self w method arg reply) := by
  refine ⟨?_, ?_, ?_⟩
  · intro n
    refine ⟨shutdownThenOk ρ (w.calls + n), ?_, ?_, n + 1, ?_⟩
    · intro i hi
      simp [shutdownThenOk, hi]
    · intro j
      exact ⟨j + 1, rfl⟩
    · obtain ⟨evs, h1, _, _, h4, _⟩ :=
        callWithRetry_events (shutdownThenOk ρ (w.calls + n)) method arg (n + 1) self w reply
      refine ⟨evs, h1, ?_⟩
      have hcall : ∀ i, i < n →
          ((shutdownThenOk ρ (w.calls + n)).call (w.calls + i)).err = some GoError.ErrShutdown := by
        intro i hi
        simp [shutdownThenOk, hi]
      have hdial : ∀ i, i < n → ∃ c, (shutdownThenOk ρ (w.calls + n)).dial (w.dials + i) = .ok c :=
        fun i _ => ⟨w.dials + i + 1, rfl⟩
      have hlast : ((shutdownThenOk ρ (w.calls + n)).call (w.calls + n)).err
          ≠ some GoError.ErrShutdown := by
        simp [shutdownThenOk]
      rw [callWithRetry_rounds _ method arg n 1 self w reply hcall hdial,
        callWithRetry_other _ 0 _ _ method arg _ hlast] at h4
      simp only [retryWorld] at h4
      omega
  · intro T hcall hdial fuel
    have h := callWithRetry_rounds T method arg fuel 0 self w reply
      (fun i _ => hcall i) (fun i _ => hdial i)
    rw [Nat.add_zero, callWithRetry_zero] at h
    rw [h]
    exact ⟨rfl, rfl⟩
  · intro T h
    have key : ∃ m, (T.call (w.calls + m)).err ≠ some GoError.ErrShutdown ∨
        ∃ e, T.dial (w.dials + m) = .error e := by
      rcases h with ⟨i, hi⟩ | ⟨j, e, hj⟩
      · exact ⟨i, Or.inl hi⟩
      · exact ⟨j, Or.inr ⟨e, hj⟩⟩
    obtain ⟨m, hm⟩ := key
    have hret := callWithRetry_returns T method arg m self w reply hm
    exact ⟨m + 1, hret, fun d => callWithRetry_mono T method arg (m + 1) d self w reply hret⟩

/-- A run for C1: the first call attempt times out, and the timeout is what
`CallWithRetry` returns after that one attempt. -/
theorem callWithRetry_returns_first_outcome_witness :
    ((timeoutTransport Unit).call (freshWorld Unit).calls).err ≠ some GoError.ErrShutdown ∧
    (CallWithRetry (timeoutTransport Unit) 1 sampleClient (freshWorld Unit)
        "NsqdCoordinator.PutMessage" () ()).ret = some (some (GoError.other "i/o timeout")) ∧
    (CallWithRetry (timeoutTransport Unit) 1 sampleClient (freshWorld Unit)
        "NsqdCoordinator.PutMessage" () ()).world.trace
      = [Event.call 0 "NsqdCoordinator.PutMessage" (),
         Event.log "NsqdCoordinator.PutMessage" (some (GoError.other "i/o timeout"))] :=
  ⟨by decide,
   (callWithRetry_returns_first_outcome (timeoutTransport Unit) 0 sampleClient (freshWorld Unit)
      "NsqdCoordinator.PutMessage" () () (by decide)).1,
   (callWithRetry_returns_first_outcome (timeoutTransport Unit) 0 sampleClient (freshWorld Unit)
      "NsqdCoordinator.PutMessage" () () (by decide)).2.2.2.1⟩

/-- A run for C2: the first attempt reports shutdown and the reconnect
succeeds, the second attempt reports shutdown and the dial is refused; the
refusal is returned and is the last event. -/
theorem callWithRetry_reconnect_failure_witness :
    (CallWithRetry (shutdownRefused Unit 1) 2 sampleClient (freshWorld Unit)
        "NsqdCoordinator.PutMessage" () ()).ret = some (some (GoError.other "connection refused")) ∧
    (CallWithRetry (shutdownRefused Unit 1) 2 sampleClient (freshWorld Unit)
        "NsqdCoordinator.PutMessage" () ()).world.trace
      = [Event.call 0 "NsqdCoordinator.PutMessage" (),
         Event.dial "10.0.0.2:4250" RPC_TIMEOUT,
         Event.close 0,
         Event.call 1 "NsqdCoordinator.PutMessage" (),
         Event.dial "10.0.0.2:4250" RPC_TIMEOUT] :=
  have h := callWithRetry_reconnect_failure (shutdownRefused Unit 1) sampleClient (freshWorld Unit)
    "NsqdCoordinator.PutMessage" () () 1 0 (GoError.other "connection refused")
    (fun _ _ => rfl) (fun i hi => ⟨i + 1, by cases Nat.lt_one_iff.mp hi; rfl⟩) rfl rfl
  ⟨h.1, h.2.2.1⟩

/-- A run for C3 with `k = 1` and a successful second attempt: the call
succeeds after a single reconnect. -/
theorem callWithRetry_reconnects_then_returns_witness :
    (CallWithRetry (shutdownThenOk Unit 1) 2 sampleClient (freshWorld Unit)
        "NsqdCoordinator.PutMessage" () ()).ret = some none ∧
    (CallWithRetry (shutdownThenOk Unit 1) 2 sampleClient (freshWorld Unit)
        "NsqdCoordinator.PutMessage" () ()).world.trace
      = [Event.call 0 "NsqdCoordinator.PutMessage" (),
         Event.dial "10.0.0.2:4250" RPC_TIMEOUT,
         Event.close 0,
         Event.call 1 "NsqdCoordinator.PutMessage" (),
         Event.log "NsqdCoordinator.PutMessage" none] := by
  obtain ⟨evs, hevs, hret, _, htrace, _⟩ :=
    callWithRetry_reconnects_then_returns (shutdownThenOk Unit 1) sampleClient (freshWorld Unit)
      "NsqdCoordinator.PutMessage" () () 1 0
      (fun i hi => by cases Nat.lt_one_iff.mp hi; rfl)
      (fun i _ => ⟨i + 1, by simp [shutdownThenOk, freshWorld]⟩)
      (by simp [shutdownThenOk, freshWorld])
  refine ⟨hret, ?_⟩
  rw [htrace, hevs]
  rfl

/-- A run for C9: on a transport that always reports shutdown and always
reconnects, seven iterations have made seven call attempts and the method has
not returned; on a transport that times out, it has returned after one. -/
theorem callWithRetry_no_retry_counter_witness :
    ((CallWithRetry (alwaysShutdown Unit) 7 sampleClient (freshWorld Unit)
        "NsqdCoordinator.PutMessage" () ()).ret = none ∧
      (CallWithRetry (alwaysShutdown Unit) 7 sampleClient (freshWorld Unit)
        "NsqdCoordinator.PutMessage" () ()).world.calls = 7) ∧
    ∃ fuel, (CallWithRetry (timeoutTransport Unit) fuel sampleClient (freshWorld Unit)
        "NsqdCoordinator.PutMessage" () ()).ret ≠ none :=
  have h := callWithRetry_no_retry_counter sampleClient (freshWorld Unit)
    "NsqdCoordinator.PutMessage" () ()
  ⟨h.2.1 (alwaysShutdown Unit) (fun _ => rfl) (fun j => ⟨j + 1, by simp [alwaysShutdown, freshWorld]⟩) 7,
   (h.2.2 (timeoutTransport Unit) (Or.inl ⟨0, by decide⟩)).imp fun _ hf => hf.1⟩

end Dispatcher

/-! ## The error value -/

/-- Claim C4.  `Error()` is the message of `CallErr` when `CallErr` is present
(the empty string otherwise) followed by the message of `ReplyErr` when
`ReplyErr` is present (the empty string otherwise); with neither present it is
the empty string. -/
theorem rpcCallError_error_concat {CE : Type} (coordErrError : CE → String)
    (self : RpcCallError CE) :
    self.Error coordErrError
      = (match self.CallErr with
          | some e => e.Error
          | none => "")
        ++ (match self.ReplyErr with
            | some r => coordErrError r
            | none => "") ∧
    (self.CallErr = none → self.ReplyErr = none → self.Error coordErrError = "") := by
  obtain ⟨callErr, replyErr⟩ := self
  cases callErr <;> cases replyErr <;> simp [RpcCallError.Error]

/-- A value for C4: with both errors present the message is the call error's
message followed by the reply error's. -/
theorem rpcCallError_error_concat_witness :
    RpcCallError.Error id { CallErr := some (GoError.other "i/o timeout"), ReplyErr := some "stale epoch" }
      = "i/o timeoutstale epoch" ∧
    RpcCallError.Error id { CallErr := some GoError.ErrShutdown, ReplyErr := none }
      = "connection is shut down" :=
  ⟨(rpcCallError_error_concat id
      { CallErr := some (GoError.other "i/o timeout"), ReplyErr := some "stale epoch" }).1,
   (rpcCallError_error_concat (id : String → String)
      { CallErr := some GoError.ErrShutdown, ReplyErr := none }).1⟩

/-! ## Reconnect -/

/-- The claim C6 fails when the dial fails: `Reconnect` returns the dial error,
and the connection it held has not been closed and is still the one in
place. -/
theorem reconnect_dial_error_keeps_connection :
    (Reconnect (timeoutTransport Unit) sampleClient (freshWorld Unit)).1
      = some (GoError.other "connection refused") ∧
    Event.close sampleClient.connection
      ∉ (Reconnect (timeoutTransport Unit) sampleClient (freshWorld Unit)).2.2.trace ∧
    (Reconnect (timeoutTransport Unit) sampleClient (freshWorld Unit)).2.2.closes = 0 ∧
    (Reconnect (timeoutTransport Unit) sampleClient (freshWorld Unit)).2.1.connection
      = sampleClient.connection := by
  refine ⟨rfl, ?_, rfl, rfl⟩
  simp [Reconnect, timeoutTransport, freshWorld]

/-- Claim C6, amended.  `Reconnect` first dials the stored address with the
stored timeout.  It returns an error exactly when that dial fails, and the
error is the dial's.  When the dial succeeds it closes the connection it held,
whatever the close returns, and holds the fresh one.  When the dial fails the
client is left as it was and nothing is closed.  The stored address and
timeout, which are those `NewNsqdRpcClient` was given, never change. -/
theorem reconnect_dials_then_closes {α ρ : Type} (T : Transport ρ) (self : NsqdRpcClient)
    (w : World α) :
    (Reconnect T self w).2.1.remote = self.remote ∧
    (Reconnect T self w).2.1.timeout = self.timeout ∧
    (∀ e, (Reconnect T self w).1 = some e ↔ T.dial w.dials = .error e) ∧
    (∀ c, T.dial w.dials = .ok c →
      (Reconnect T self w).1 = none ∧
      (Reconnect T self w).2.1.connection = c ∧
      (Reconnect T self w).2.2.trace
        = w.trace ++ [Event.dial self.remote self.timeout, Event.close self.connection] ∧
      (Reconnect T self w).2.2.closes = w.closes + 1) ∧
    (∀ e, T.dial w.dials = .error e →
      (Reconnect T self w).2.1 = self ∧
      (Reconnect T self w).2.2.trace = w.trace ++ [Event.dial self.remote self.timeout] ∧
      (Reconnect T self w).2.2.closes = w.closes) ∧
    (∀ (w0 : World α) (addr : String) (timeout : Duration) (client : NsqdRpcClient),
      (NewNsqdRpcClient T w0 addr timeout).1 = .ok client →
      client.remote = addr ∧ client.timeout = timeout) := by
  refine ⟨?_, ?_, ?_, ?_, ?_, ?_⟩
  · cases hd : T.dial w.dials <;> simp [Reconnect, hd]
  · cases hd : T.dial w.dials <;> simp [Reconnect, hd]
  · intro e
    cases hd : T.dial w.dials <;> simp [Reconnect, hd]
  · intro c hd
    simp [Reconnect, hd]
  · intro e hd
    simp [Reconnect, hd]
  · intro w0 addr timeout client h
    cases hd : T.dial w0.dials with
    | error e => simp [NewNsqdRpcClient, hd] at h
    | ok c =>
      simp only [NewNsqdRpcClient, hd, Except.ok.injEq] at h
      subst h
      exact ⟨rfl, rfl⟩

/-- A run for C6 as amended: when the dial succeeds, `Reconnect` returns nil,
has dialed the stored address and then closed the connection it held, and
holds the fresh connection. -/
theorem reconnect_dials_then_closes_witness :
    (Reconnect (alwaysShutdown Unit) sampleClient (freshWorld Unit)).1 = none ∧
    (Reconnect (alwaysShutdown Unit) sampleClient (freshWorld Unit)).2.1.connection = 1 ∧
    (Reconnect (alwaysShutdown Unit) sampleClient (freshWorld Unit)).2.2.trace
      = [Event.dial "10.0.0.2:4250" RPC_TIMEOUT, Event.close 0] :=
  have h := (reconnect_dials_then_closes (alwaysShutdown Unit) sampleClient
    (freshWorld Unit)).2.2.2.1 1 rfl
  ⟨h.1, h.2.1, h.2.2.1⟩

/-! ## The mutating operations -/

section OperationLemmas

variable {α CE : Type}

theorem sendsRequest_callWithRetry (T : Transport CE) (fuel : Nat) (self : NsqdRpcClient)
    (w : World α) (method : String) (arg : α) (reply : CE) :
    SendsRequest (CallWithRetry T (fuel + 1) self w method arg reply).world self w method arg := by
  obtain ⟨evs, h1, h2, h3, _⟩ := callWithRetry_events T method arg (fuel + 1) self w reply
  have hh := h3 (Nat.succ_pos _)
  cases evs with
  | nil => simp at hh
  | cons ev rest =>
    simp only [List.head?_cons, Option.some.injEq] at hh
    subst hh
    exact ⟨rest, h1, fun ev hev hc => h2 ev (List.mem_cons_of_mem _ hev) hc⟩

theorem handsDispatcher_return [Inhabited CE] (T : Transport CE) (self : NsqdRpcClient)
    (w : World α) (method : String) (arg : α) :
    HandsDispatcher
      (fun fuel => returnRpcCallError (CallWithRetry T fuel self w method arg default))
      T self w method arg :=
  fun fuel => ⟨rfl, sendsRequest_callWithRetry T fuel self w method arg default⟩

theorem wrapsDispatcher_return (d : Run α CE) : WrapsDispatcher (returnRpcCallError d) d := by
  refine ⟨?_, ?_, rfl, rfl⟩
  · intro err h
    simp [returnRpcCallError, h]
  · intro h
    simp [returnRpcCallError, h]

theorem fieldsFollowDispatcher_return (d : Run α CE) :
    FieldsFollowDispatcher (returnRpcCallError d) d := by
  intro err h
  exact ⟨{ CallErr := err, ReplyErr := some d.reply }, by simp [returnRpcCallError, h], by simp,
    by simp⟩

end OperationLemmas

section OperationTheorems

variable {X S O L M CE : Type} [Inhabited CE]

/-- Claim C7.  Each epoch-fenced operation hands the dispatcher a request that
carries the epoch of the caller unchanged.  `UpdateTopicInfo`,
`EnableTopicWrite`, `DisableTopicWrite`, `UpdateCatchupForTopic` and
`UpdateChannelsForTopic` send, under their own method name, a request with
`LookupdEpoch = epoch` and `TopicPartionMetaInfo` the partition info given.
`NotifyTopicLeaderSession` sends a request with `LookupdEpoch = epoch`,
`TopicName` and `TopicPartition` from the partition info,
`TopicLeaderSession` the session given, `TopicSession = session.Session` and
`TopicLeaderEpoch = session.LeaderEpoch`. -/
theorem epoch_operations_send_epoch (T : Transport CE) (self : NsqdRpcClient)
    (w : World (RpcArg X S O L M)) (epoch : Int) (info : TopicPartionMetaInfo X)
    (session : TopicLeaderSession S) :
    (∃ r : RpcAdminTopicInfo X, r.LookupdEpoch = epoch ∧ r.TopicPartionMetaInfo = info ∧
      HandsDispatcher (fun fuel => UpdateTopicInfo T fuel self w epoch info) T self w
        "NsqdCoordinator.UpdateTopicInfo" (RpcArg.adminTopicInfo r)) ∧
    (∃ r : RpcAdminTopicInfo X, r.LookupdEpoch = epoch ∧ r.TopicPartionMetaInfo = info ∧
      HandsDispatcher (fun fuel => EnableTopicWrite T fuel self w epoch info) T self w
        "NsqdCoordinator.EnableTopicWrite" (RpcArg.adminTopicInfo r)) ∧
    (∃ r : RpcAdminTopicInfo X, r.LookupdEpoch = epoch ∧ r.TopicPartionMetaInfo = info ∧
      HandsDispatcher (fun fuel => DisableTopicWrite T fuel self w epoch info) T self w
        "NsqdCoordinator.DisableTopicWrite" (RpcArg.adminTopicInfo r)) ∧
    (∃ r : RpcAdminTopicInfo X, r.LookupdEpoch = epoch ∧ r.TopicPartionMetaInfo = info ∧
      HandsDispatcher (fun fuel => UpdateCatchupForTopic T fuel self w epoch info) T self w
        "NsqdCoordinator.UpdateCatchupForTopic" (RpcArg.adminTopicInfo r)) ∧
    (∃ r : RpcAdminTopicInfo X, r.LookupdEpoch = epoch ∧ r.TopicPartionMetaInfo = info ∧
      HandsDispatcher (fun fuel => UpdateChannelsForTopic T fuel self w epoch info) T self w
        "NsqdCoordinator.UpdateChannelsForTopic" (RpcArg.adminTopicInfo r)) ∧
    (∃ r : RpcTopicLeaderSession S, r.LookupdEpoch = epoch ∧ r.TopicName = info.Name ∧
      r.TopicPartition = info.Partition ∧ r.TopicLeaderSession = session ∧
      r.TopicSession = session.Session ∧ r.TopicLeaderEpoch = session.LeaderEpoch ∧
      HandsDispatcher (fun fuel => NotifyTopicLeaderSession T fuel self w epoch info session)
        T self w "NsqdCoordinator.NotifyTopicLeaderSession" (RpcArg.topicLeaderSession r)) :=
  ⟨⟨_, rfl, rfl, handsDispatcher_return T self w _ _⟩,
   ⟨_, rfl, rfl, handsDispatcher_return T self w _ _⟩,
   ⟨_, rfl, rfl, handsDispatcher_return T self w _ _⟩,
   ⟨_, rfl, rfl, handsDispatcher_return T self w _ _⟩,
   ⟨_, rfl, rfl, handsDispatcher_return T self w _ _⟩,
   ⟨_, rfl, rfl, rfl, rfl, rfl, rfl, handsDispatcher_return T self w _ _⟩⟩

/-- Claim C8.  `UpdateChannelOffset`, `PutMessage` and `PutMessages` each make
one invocation of the dispatcher, with a request that carries
`TopicLeaderEpoch = leaderEpoch` and, in a field of its own,
`TopicEpoch = info.Epoch`, with `TopicName = info.Name` and
`TopicPartition = info.Partition`, and the payload as given: the channel name
and the offset, the log entry and the message, or the whole list of log
entries and the whole list of messages in the order given, in one request. -/
theorem leader_epoch_operations_send_payload (T : Transport CE) (self : NsqdRpcClient)
    (w : World (RpcArg X S O L M)) (leaderEpoch : Int) (info : TopicPartionMetaInfo X)
    (channel : String) (offset : O) (log : L) (message : Option M)
    (loglist : List L) (messages : List (Option M)) :
    (∃ r : RpcChannelOffsetArg O, r.TopicLeaderEpoch = leaderEpoch ∧ r.TopicEpoch = info.Epoch ∧
      r.TopicName = info.Name ∧ r.TopicPartition = info.Partition ∧
      r.Channel = channel ∧ r.ChannelOffset = offset ∧
      HandsDispatcher (fun fuel => UpdateChannelOffset T fuel self w leaderEpoch info channel offset)
        T self w "NsqdCoordinator.UpdateChannelOffset" (RpcArg.channelOffset r)) ∧
    (∃ r : RpcPutMessage L M, r.TopicLeaderEpoch = leaderEpoch ∧ r.TopicEpoch = info.Epoch ∧
      r.TopicName = info.Name ∧ r.TopicPartition = info.Partition ∧
      r.LogData = log ∧ r.TopicMessage = message ∧
      HandsDispatcher (fun fuel => PutMessage T fuel self w leaderEpoch info log message)
        T self w "NsqdCoordinator.PutMessage" (RpcArg.putMessage r)) ∧
    (∃ r : RpcPutMessages L M, r.TopicLeaderEpoch = leaderEpoch ∧ r.TopicEpoch = info.Epoch ∧
      r.TopicName = info.Name ∧ r.TopicPartition = info.Partition ∧
      r.LogList = loglist ∧ r.TopicMessages = messages ∧
      HandsDispatcher (fun fuel => PutMessages T fuel self w leaderEpoch info loglist messages)
        T self w "NsqdCoordinator.PutMessages" (RpcArg.putMessages r)) :=
  ⟨⟨_, rfl, rfl, rfl, rfl, rfl, rfl, handsDispatcher_return T self w _ _⟩,
   ⟨_, rfl, rfl, rfl, rfl, rfl, rfl, handsDispatcher_return T self w _ _⟩,
   ⟨_, rfl, rfl, rfl, rfl, rfl, rfl, handsDispatcher_return T self w _ _⟩⟩

/-- Claim C10.  Every mutating operation, on every transport, hands back what
the dispatcher returned in a non-nil `RpcCallError`: once the dispatcher has
returned `err` (nil on success, the transport or reconnect error otherwise),
the operation has returned a result whose `CallErr` is exactly `err` and whose
`ReplyErr` is non-nil and is the reply the dispatcher was given.  So success
shows in the fields only, not in the absence of a result. -/
theorem operations_wrap_dispatcher_result (T : Transport CE) (fuel : Nat) (self : NsqdRpcClient)
    (w : World (RpcArg X S O L M)) (epoch leaderEpoch : Int) (info : TopicPartionMetaInfo X)
    (session : TopicLeaderSession S) (channel : String) (offset : O) (log : L)
    (message : Option M) (loglist : List L) (messages : List (Option M)) :
    WrapsDispatcher (NotifyTopicLeaderSession T fuel self w epoch info session)
      (CallWithRetry T fuel self w "NsqdCoordinator.NotifyTopicLeaderSession"
        (RpcArg.topicLeaderSession
          { LookupdEpoch := epoch
            TopicLeaderSession := session
            TopicName := info.Name
            TopicPartition := info.Partition
            TopicSession := session.Session
            TopicLeaderEpoch := session.LeaderEpoch }) default) ∧
    WrapsDispatcher (UpdateTopicInfo T fuel self w epoch info)
      (CallWithRetry T fuel self w "NsqdCoordinator.UpdateTopicInfo"
        (RpcArg.adminTopicInfo { LookupdEpoch := epoch, TopicPartionMetaInfo := info }) default) ∧
    WrapsDispatcher (EnableTopicWrite T fuel self w epoch info)
      (CallWithRetry T fuel self w "NsqdCoordinator.EnableTopicWrite"
        (RpcArg.adminTopicInfo { LookupdEpoch := epoch, TopicPartionMetaInfo := info }) default) ∧
    WrapsDispatcher (DisableTopicWrite T fuel self w epoch info)
      (CallWithRetry T fuel self w "NsqdCoordinator.DisableTopicWrite"
        (RpcArg.adminTopicInfo { LookupdEpoch := epoch, TopicPartionMetaInfo := info }) default) ∧
    WrapsDispatcher (UpdateCatchupForTopic T fuel self w epoch info)
      (CallWithRetry T fuel self w "NsqdCoordinator.UpdateCatchupForTopic"
        (RpcArg.adminTopicInfo { LookupdEpoch := epoch, TopicPartionMetaInfo := info }) default) ∧
    WrapsDispatcher (UpdateChannelsForTopic T fuel self w epoch info)
      (CallWithRetry T fuel self w "NsqdCoordinator.UpdateChannelsForTopic"
        (RpcArg.adminTopicInfo { LookupdEpoch := epoch, TopicPartionMetaInfo := info }) default) ∧
    WrapsDispatcher (UpdateChannelOffset T fuel self w leaderEpoch info channel offset)
      (CallWithRetry T fuel self w "NsqdCoordinator.UpdateChannelOffset"
        (RpcArg.channelOffset
          { TopicName := info.Name
            TopicPartition := info.Partition
            TopicEpoch := info.Epoch
            TopicLeaderEpoch := leaderEpoch
            Channel := channel
            ChannelOffset := offset }) default) ∧
    WrapsDispatcher (PutMessage T fuel self w leaderEpoch info log message)
      (CallWithRetry T fuel self w "NsqdCoordinator.PutMessage"
        (RpcArg.putMessage
          { LogData := log
            TopicName := info.Name
            TopicPartition := info.Partition
            TopicMessage := message
            TopicEpoch := info.Epoch
            TopicLeaderEpoch := leaderEpoch }) default) ∧
    WrapsDispatcher (PutMessages T fuel self w leaderEpoch info loglist messages)
      (CallWithRetry T fuel self w "NsqdCoordinator.PutMessages"
        (RpcArg.putMessages
          { LogList := loglist
            TopicName := info.Name
            TopicPartition := info.Partition
            TopicMessages := messages
            TopicEpoch := info.Epoch
            TopicLeaderEpoch := leaderEpoch }) default) :=
  ⟨wrapsDispatcher_return _, wrapsDispatcher_return _, wrapsDispatcher_return _,
   wrapsDispatcher_return _, wrapsDispatcher_return _, wrapsDispatcher_return _,
   wrapsDispatcher_return _, wrapsDispatcher_return _, wrapsDispatcher_return _⟩

/-- The claim C5 fails when the call times out: `PutMessage` returns an
`RpcCallError` with both `CallErr` and `ReplyErr` present. -/
theorem putMessage_timeout_has_both_fields :
    ∃ rc : RpcCallError String,
      (PutMessage (timeoutTransport String) 1 sampleClient
          (freshWorld (RpcArg Unit Unit Unit Unit Unit)) 3 sampleInfo () (some ())).ret
        = some (some rc) ∧
      rc.CallErr = some (GoError.other "i/o timeout") ∧
      rc.ReplyErr = some "" :=
  ⟨{ CallErr := some (GoError.other "i/o timeout"), ReplyErr := some "" }, rfl, rfl, rfl⟩

/-- Claim C5, amended.  For every mutating operation and every transport
outcome, once the dispatcher has returned, the `RpcCallError` returned has its
`ReplyErr` present, and has its `CallErr` present exactly when the dispatcher
returned an error: only `ReplyErr` is present when the dispatcher returned
nil, and both are present otherwise. -/
theorem operations_fields_follow_dispatcher (T : Transport CE) (fuel : Nat) (self : NsqdRpcClient)
    (w : World (RpcArg X S O L M)) (epoch leaderEpoch : Int) (info : TopicPartionMetaInfo X)
    (session : TopicLeaderSession S) (channel : String) (offset : O) (log : L)
    (message : Option M) (loglist : List L) (messages : List (Option M)) :
    FieldsFollowDispatcher (NotifyTopicLeaderSession T fuel self w epoch info session)
      (CallWithRetry T fuel self w "NsqdCoordinator.NotifyTopicLeaderSession"
        (RpcArg.topicLeaderSession
          { LookupdEpoch := epoch
            TopicLeaderSession := session
            TopicName := info.Name
            TopicPartition := info.Partition
            TopicSession := session.Session
            TopicLeaderEpoch := session.LeaderEpoch }) default) ∧
    FieldsFollowDispatcher (UpdateTopicInfo T fuel self w epoch info)
      (CallWithRetry T fuel self w "NsqdCoordinator.UpdateTopicInfo"
        (RpcArg.adminTopicInfo { LookupdEpoch := epoch, TopicPartionMetaInfo := info }) default) ∧
    FieldsFollowDispatcher (EnableTopicWrite T fuel self w epoch info)
      (CallWithRetry T fuel self w "NsqdCoordinator.EnableTopicWrite"
        (RpcArg.adminTopicInfo { LookupdEpoch := epoch, TopicPartionMetaInfo := info }) default) ∧
    FieldsFollowDispatcher (DisableTopicWrite T fuel self w epoch info)
      (CallWithRetry T fuel self w "NsqdCoordinator.DisableTopicWrite"
        (RpcArg.adminTopicInfo { LookupdEpoch := epoch, TopicPartionMetaInfo := info }) default) ∧
    FieldsFollowDispatcher (UpdateCatchupForTopic T fuel self w epoch info)
      (CallWithRetry T fuel self w "NsqdCoordinator.UpdateCatchupForTopic"
        (RpcArg.adminTopicInfo { LookupdEpoch := epoch, TopicPartionMetaInfo := info }) default) ∧
    FieldsFollowDispatcher (UpdateChannelsForTopic T fuel self w epoch info)
      (CallWithRetry T fuel self w "NsqdCoordinator.UpdateChannelsForTopic"
        (RpcArg.adminTopicInfo { LookupdEpoch := epoch, TopicPartionMetaInfo := info }) default) ∧
    FieldsFollowDispatcher (UpdateChannelOffset T fuel self w leaderEpoch info channel offset)
      (CallWithRetry T fuel self w "NsqdCoordinator.UpdateChannelOffset"
        (RpcArg.channelOffset
          { TopicName := info.Name
            TopicPartition := info.Partition
            TopicEpoch := info.Epoch
            TopicLeaderEpoch := leaderEpoch
            Channel := channel
            ChannelOffset := offset }) default) ∧
    FieldsFollowDispatcher (PutMessage T fuel self w leaderEpoch info log message)
      (CallWithRetry T fuel self w "NsqdCoordinator.PutMessage"
        (RpcArg.putMessage
          { LogData := log
            TopicName := info.Name
            TopicPartition := info.Partition
            TopicMessage := message
            TopicEpoch := info.Epoch
            TopicLeaderEpoch := leaderEpoch }) default) ∧
    FieldsFollowDispatcher (PutMessages T fuel self w leaderEpoch info loglist messages)
      (CallWithRetry T fuel self w "NsqdCoordinator.PutMessages"
        (RpcArg.putMessages
          { LogList := loglist
            TopicName := info.Name
            TopicPartition := info.Partition
            TopicMessages := messages
            TopicEpoch := info.Epoch
            TopicLeaderEpoch := leaderEpoch }) default) :=
  ⟨fieldsFollowDispatcher_return _, fieldsFollowDispatcher_return _,
   fieldsFollowDispatcher_return _, fieldsFollowDispatcher_return _,
   fieldsFollowDispatcher_return _, fieldsFollowDispatcher_return _,
   fieldsFollowDispatcher_return _, fieldsFollowDispatcher_return _,
   fieldsFollowDispatcher_return _⟩

/-- A run for C7: `UpdateTopicInfo` at epoch 7 sends a request carrying
epoch 7 and the partition info. -/
theorem epoch_operations_send_epoch_witness :
    ∃ r : RpcAdminTopicInfo Unit, r.LookupdEpoch = 7 ∧ r.TopicPartionMetaInfo = sampleInfo ∧
      SendsRequest
        (UpdateTopicInfo (timeoutTransport String) 1 sampleClient
          (freshWorld (RpcArg Unit Unit Unit Unit Unit)) 7 sampleInfo).world
        sampleClient (freshWorld (RpcArg Unit Unit Unit Unit Unit))
        "NsqdCoordinator.UpdateTopicInfo" (RpcArg.adminTopicInfo r) :=
  (epoch_operations_send_epoch (timeoutTransport String) sampleClient
    (freshWorld (RpcArg Unit Unit Unit Unit Unit)) 7 sampleInfo sampleSession).1.imp
    fun _ h => ⟨h.1, h.2.1, (h.2.2 0).2⟩

/-- A run for C8: `PutMessages` at leader epoch 3 sends one request carrying
leader epoch 3, the epoch of the partition info and both lists whole. -/
theorem leader_epoch_operations_send_payload_witness :
    ∃ r : RpcPutMessages Nat String, r.TopicLeaderEpoch = 3 ∧ r.TopicEpoch = 5 ∧
      r.LogList = [10, 11, 12] ∧ r.TopicMessages = [some "a", some "b", some "c"] ∧
      SendsRequest
        (PutMessages (timeoutTransport String) 1 sampleClient
          (freshWorld (RpcArg Unit Unit Unit Nat String)) 3 sampleInfo [10, 11, 12]
          [some "a", some "b", some "c"]).world
        sampleClient (freshWorld (RpcArg Unit Unit Unit Nat String))
        "NsqdCoordinator.PutMessages" (RpcArg.putMessages r) :=
  (leader_epoch_operations_send_payload (timeoutTransport String) sampleClient
    (freshWorld (RpcArg Unit Unit Unit Nat String)) 3 sampleInfo "ch" () 10 (some "a")
    [10, 11, 12] [some "a", some "b", some "c"]).2.2.imp
    fun _ h => ⟨h.1, h.2.1, h.2.2.2.2.1, h.2.2.2.2.2.1, (h.2.2.2.2.2.2 0).2⟩

/-- A run for C10: on a transport whose first call attempt succeeds,
`PutMessage` returns a non-nil `RpcCallError` with a nil `CallErr` and a
non-nil `ReplyErr`. -/
theorem operations_wrap_dispatcher_result_witness :
    (PutMessage (shutdownThenOk String 0) 1 sampleClient
        (freshWorld (RpcArg Unit Unit Unit Nat String)) 3 sampleInfo 10 (some "a")).ret
      = some (some { CallErr := none, ReplyErr := some "" }) :=
  (operations_wrap_dispatcher_result (shutdownThenOk String 0) 1 sampleClient
    (freshWorld (RpcArg Unit Unit Unit Nat String)) 7 3 sampleInfo sampleSession "ch" ()
    10 (some "a") [10] [some "a"]).2.2.2.2.2.2.2.1.1 none rfl

/-- A run for C5 as amended: on a transport whose first call attempt succeeds,
`PutMessage` returns a result with `ReplyErr` present and `CallErr` absent. -/
theorem operations_fields_follow_dispatcher_witness :
    ∃ rc : RpcCallError String,
      (PutMessage (shutdownThenOk String 0) 1 sampleClient
          (freshWorld (RpcArg Unit Unit Unit Nat String)) 3 sampleInfo 10 (some "a")).ret
        = some (some rc) ∧
      rc.ReplyErr ≠ none ∧ rc.CallErr = none :=
  ((operations_fields_follow_dispatcher (shutdownThenOk String 0) 1 sampleClient
    (freshWorld (RpcArg Unit Unit Unit Nat String)) 7 3 sampleInfo sampleSession "ch" ()
    10 (some "a") [10] [some "a"]).2.2.2.2.2.2.2.1 none rfl).imp
    fun _ h => ⟨h.1, h.2.1, by
      have h3 := h.2.2
      simpa using h3⟩

end OperationTheorems

end Consistence
